import Mathlib

/-!
Verification development for the GitHub repository crawler
(`crawler_refactored.py`, `Crawler/crawler_refactored_with_SRP.py`,
`crawler.py`, `Classes/Crawler.py`).

Python `datetime` values are modelled as `Int` microseconds since the epoch
2020-01-01T00:00 (the earliest date a run uses); `timedelta` arithmetic on
them is exact integer arithmetic, and `timedelta / 2` rounds to the nearest
microsecond, ties to even, exactly as documented for `datetime.timedelta`.
Formatting a datetime with `%Y-%m-%d` (as the search queries do) keeps only
its calendar day, i.e. the floor of `t / (86400 * 10^6)`.

The GitHub API is modelled by oracles passed in as functions:
a count oracle `cnt` for `search_count` (the `total_count` of a query),
a page oracle `fetch` for the per-page search responses, and a download
oracle `dl` for the result of fetching one archive.  The live API's answers
may drift between calls, so no relation between the answers for different
windows is assumed unless a claim supplies one.
-/

/-! ## Configuration constants (crawler_refactored.py lines 27-32) -/

def PER_PAGE : Nat := 100

def DELAY_BETWEEN_PAGES : Nat := 5

def MAX_RESULTS_PER_QUERY : Nat := 1000

def DATE_STEP_DAYS : Int := 182

/-- Microseconds in one day: the resolution of Python `timedelta`. -/
def usPerDay : Int := 86400000000

/-- Calendar day of a datetime, as used by `%Y-%m-%d` formatting:
floor division of the microsecond timestamp by one day. -/
def dayOf (t : Int) : Int := t / usPerDay

/-- Python `timedelta / 2` on a timedelta of `d` microseconds: exact division
by 2 rounded to the nearest microsecond, ties to even. -/
def halfRoundEven (d : Int) : Int :=
  if d % 2 = 0 then d / 2
  else if (d / 2) % 2 = 0 then d / 2 else d / 2 + 1

/-! ## WindowPartitioner: split_window_if_needed (crawler_refactored.py lines 121-133)

```
def split_window_if_needed(start, end):
    cnt = search_count(start, end)
    if cnt <= MAX_RESULTS_PER_QUERY:
        return [(start, end)]
    midpoint = start + (end - start) / 2
    left = split_window_if_needed(start, midpoint)
    right = split_window_if_needed(midpoint + timedelta(days=1), end)
    return left + right
```
The Python recursion has no structural decreasing measure, so it is embedded
with explicit fuel; `none` means the recursion did not complete within the
given depth. -/
def split_window_if_needed (cnt : Int → Int → Nat) :
    Nat → Int → Int → Option (List (Int × Int))
  | 0, _, _ => none
  | fuel + 1, s, e =>
    if cnt s e ≤ MAX_RESULTS_PER_QUERY then some [(s, e)]
    else
      match split_window_if_needed cnt fuel s (s + halfRoundEven (e - s)),
            split_window_if_needed cnt fuel
              (s + halfRoundEven (e - s) + usPerDay) e with
      | some left, some right => some (left ++ right)
      | _, _ => none

/-- The set of calendar days covered by one window, as the search query
`created:start..end` (day-formatted) reads it. -/
def windowDays (w : Int × Int) : Finset Int := Finset.Icc (dayOf w.1) (dayOf w.2)

/-- Calendar days covered by a list of windows. -/
def windowsDays : List (Int × Int) → Finset Int
  | [] => ∅
  | w :: rest => windowDays w ∪ windowsDays rest

/-- Two windows are day-adjacent when the second starts on the calendar day
right after the day on which the first ends (no gap, no overlap). -/
def dayAdjacent (a b : Int × Int) : Prop := dayOf b.1 = dayOf a.2 + 1

/-! ## CrawlOrchestrator top-level windows (crawler_refactored.py lines 164-166, 212)

```
current_start = start_date
while current_start <= finish_date:
    current_end = min(current_start + timedelta(days=DATE_STEP_DAYS), finish_date)
    ...
    current_start = current_end + timedelta(days=1)
```
Fuel bounds the number of loop iterations modelled; the list is the sequence
of `(current_start, current_end)` windows produced. -/
def crawlTopWindows : Nat → Int → Int → List (Int × Int)
  | 0, _, _ => []
  | fuel + 1, current, finish =>
    if current ≤ finish then
      (current, min (current + DATE_STEP_DAYS * usPerDay) finish) ::
        crawlTopWindows fuel
          (min (current + DATE_STEP_DAYS * usPerDay) finish + usPerDay) finish
    else []

/-! ## Item records and the per-item loop of crawl (crawler_refactored.py lines 179-200) -/

/-- One search-result item, with the fields the crawlers read. -/
structure RepoItem where
  owner_login : String
  name : String
  full_name : String
  clone_url : String
  default_branch : Option String
  topics : List String
deriving DecidableEq

/-- Python `x or dflt` on an optional string: `None` and `""` are falsy. -/
def pyOrElse (v : Option String) (dflt : String) : String :=
  match v with
  | none => dflt
  | some s => if s = "" then dflt else s

/-- Output zip file name, crawler_refactored.py line 188:
`f"{full_name.replace('/', '#')}@{default_branch}.zip"`. -/
def zip_name (it : RepoItem) : String :=
  (it.full_name.replace "/" "#") ++ "@" ++ pyOrElse it.default_branch "main" ++ ".zip"

/-- One row of the output CSV sink (crawler_refactored.py lines 193/198). -/
structure CsvRow where
  username : String
  repo : String
  full_name : String
  clone_url : String
  branch : String
  topics : String
  status : String
  zip_path : String
deriving DecidableEq

/-- The row written for one item with the given download status. -/
def crawlRow (it : RepoItem) (status : String) : CsvRow :=
  ⟨it.owner_login, it.name, it.full_name, it.clone_url,
    pyOrElse it.default_branch "main",
    String.intercalate ";" it.topics, status, zip_name it⟩

/-- Status string recorded for a download outcome: `"downloaded"` on success,
`"error"` on a caught exception (crawler_refactored.py lines 193/198). -/
def downloadStatus (r : Except String Unit) : String :=
  match r with
  | Except.ok _ => "downloaded"
  | Except.error _ => "error"

/-- The per-item loop body of `crawl` for one list of yielded items
(crawler_refactored.py lines 179-200): every yielded item gets a download
attempt (`dl` is the outcome oracle of `download_zip` for that item), one
CSV row, and exactly one counter increment; there is no topic check.
Returns (csv rows in order, period_downloaded, period_failed). -/
def crawlProcessItems (dl : RepoItem → Except String Unit) :
    List RepoItem → List CsvRow × Nat × Nat
  | [] => ([], 0, 0)
  | it :: rest =>
    let t := crawlProcessItems dl rest
    match dl it with
    | Except.ok _ => (crawlRow it "downloaded" :: t.1, t.2.1 + 1, t.2.2)
    | Except.error _ => (crawlRow it "error" :: t.1, t.2.1, t.2.2 + 1)

/-- The loop of `crawl` over the leaf windows of one top-level window
(crawler_refactored.py lines 173-200), with `itemsOf` the items the page
iterator yields for each leaf window. -/
def crawlProcessWindows (dl : RepoItem → Except String Unit)
    (itemsOf : Int × Int → List RepoItem) :
    List (Int × Int) → List CsvRow × Nat × Nat
  | [] => ([], 0, 0)
  | w :: rest =>
    let h := crawlProcessItems dl (itemsOf w)
    let t := crawlProcessWindows dl itemsOf rest
    (h.1 ++ t.1, h.2.1 + t.2.1, h.2.2 + t.2.2)

/-! ## SRP pipeline per-item handling (crawler_refactored_with_SRP.py lines 258-278) -/

/-- The skip test of `Pipeline.run`:
`if topics and "microservices" not in topics: continue`
(skip only when the topic list is nonempty and lacks the tag). -/
def srpSkip (topics : List String) : Bool :=
  !topics.isEmpty && !(topics.contains "microservices")

/-- One row of the SRP variant's CSV logger. -/
structure SrpRow where
  username : String
  repo : String
  url : String
  status : String
deriving DecidableEq

/-- The per-item loop body of `Pipeline.run` (lines 258-278): skipped items
produce nothing; processed items get a download attempt, one logged row and
one counter increment.  Returns (rows, period_downloaded, period_failed). -/
def srpProcessItems (dl : RepoItem → Bool × String) :
    List RepoItem → List SrpRow × Nat × Nat
  | [] => ([], 0, 0)
  | it :: rest =>
    let t := srpProcessItems dl rest
    if srpSkip it.topics then t
    else
      ((⟨it.owner_login, it.name, it.clone_url, (dl it).2⟩ : SrpRow) :: t.1,
        (if (dl it).1 then t.2.1 + 1 else t.2.1),
        (if (dl it).1 then t.2.2 else t.2.2 + 1))

/-! ## ArchiveFetcher (crawler_refactored_with_SRP.py lines 163-175) -/

/-- `RepoDownloader.download_zip`: the `fetched` argument is the outcome of
the network transfer (body streamed to the file), `Except.error msg` when any
exception with message `msg` was raised inside the `try`.  The function
itself never raises: every exception is mapped to `(False, "error: " + msg)`
and success to `(True, "downloaded")`. -/
def download_zip (fetched : Except String Unit) : Bool × String :=
  match fetched with
  | Except.ok _ => (true, "downloaded")
  | Except.error msg => (false, "error: " ++ msg)

/-! ## RateLimitedClient -/

/-- An HTTP response as the rate-limit handlers read it: status code, the
`X-RateLimit-Remaining` and `X-RateLimit-Reset` headers when present, and an
abstract JSON body. -/
structure HttpResp where
  status : Nat
  rl_remaining : Option String
  rl_reset : Option Int
  body : Nat
deriving DecidableEq

/-- The throttling test of `GitHubSearchClient._get` (SRP variant, lines
90-92): status 403, the remaining header present, and equal to `"0"`. -/
def srpThrottle (r : HttpResp) : Bool :=
  r.status == 403 && r.rl_remaining == some "0"

/-- Sleep duration of `_get` (line 94): `max(0, reset - int(time.time()) + 5)`
with the reset header defaulting to 0. -/
def srpSleepFor (now : Int) (r : HttpResp) : Int :=
  max 0 (r.rl_reset.getD 0 - now + 5)

/-- `GitHubSearchClient._get` (SRP variant, lines 86-99): the `while True`
loop, driven by the scripted list of successive responses; `now` advances by
each blocking sleep.  Returns `none` when the script is exhausted while the
loop still retries, otherwise the final result (`Except.error status` for
`raise_for_status`, `Except.ok body` for a success) together with the list of
sleeps performed. -/
def srpGet : List HttpResp → Int → Option (Except Nat Nat × List Int)
  | [], _ => none
  | r :: rest, now =>
    if srpThrottle r then
      match srpGet rest (now + srpSleepFor now r) with
      | none => none
      | some (res, sleeps) => some (res, srpSleepFor now r :: sleeps)
    else if 400 ≤ r.status then some (Except.error r.status, [])
    else some (Except.ok r.body, [])

/-- `rate_limit_sleep` (crawler_refactored.py lines 66-75): on a 403 with a
reset header, sleep `max(0, reset - now + 3)`; otherwise do nothing.  It does
not retry anything; it only sleeps. -/
def rate_limit_sleep (now : Int) (r : HttpResp) : Int :=
  if r.status == 403 then
    match r.rl_reset with
    | some reset => max 0 (reset - now + 3)
    | none => 0
  else 0

/-- Response handling of `search_count` (crawler_refactored.py lines 83-86):
`rate_limit_sleep(resp)` then `resp.raise_for_status()` then the body.
Returns (sleep performed, `Except.error status` when `raise_for_status`
raises on a 4xx/5xx, else the body). -/
def search_count_handle (now : Int) (r : HttpResp) : Int × Except Nat Nat :=
  (rate_limit_sleep now r,
    if 400 ≤ r.status then Except.error r.status else Except.ok r.body)

/-! ## PagedResultIterator (crawler_refactored.py lines 88-119) -/

/-- One search response page: `total_count` and the item list. -/
structure SearchPage where
  total_count : Nat
  items : List RepoItem

/-- `pages = math.ceil(min(total_count, MAX_RESULTS_PER_QUERY) / PER_PAGE)`
(crawler_refactored.py line 102; also the per-leaf estimate at line 176).
For these magnitudes the float division is exact enough that the ceiling
equals `(min(n, 1000) + 99) // 100`. -/
def pagesFor (total_count : Nat) : Nat :=
  (min total_count MAX_RESULTS_PER_QUERY + PER_PAGE - 1) / PER_PAGE

/-- `iter_search_pages` (crawler_refactored.py lines 88-119): the first
request (page 1) learns `total_count` and its items are yielded immediately;
then one request per page for `page in range(2, pages + 1)`.  `fetch p` is
the API response to the page-`p` request.  Returns (all yielded items in
order, the list of page numbers requested). -/
def iter_search_pages (fetch : Nat → SearchPage) : List RepoItem × List Nat :=
  ((fetch 1).items ++
      (List.range' 2 (pagesFor (fetch 1).total_count - 1)).foldr
        (fun p acc => (fetch p).items ++ acc) [],
    1 :: List.range' 2 (pagesFor (fetch 1).total_count - 1))

/-- Page count of the SRP variant's `Pipeline.run` (line 247) and of the
original `crawler.py` (line 63): `int(math.ceil(total_count / 100.0))`,
with no cap applied. -/
def srpPages (total_count : Nat) : Nat := (total_count + PER_PAGE - 1) / PER_PAGE

/-- The pages `Pipeline.run` requests: `for page in range(1, pages + 1)`. -/
def srpRequestedPages (total_count : Nat) : List Nat :=
  List.range' 1 (srpPages total_count)

/-- `page_count_estimate` accumulated by `crawl` over the leaf windows of one
top-level window (crawler_refactored.py lines 171-176): a separate
`search_count` query per leaf, then
`page_count_estimate += math.ceil(min(tc, MAX_RESULTS_PER_QUERY) / PER_PAGE)`. -/
def page_count_estimate (cnt : Int → Int → Nat) (ws : List (Int × Int)) : Nat :=
  ws.foldr (fun w acc => pagesFor (cnt w.1 w.2) + acc) 0

/-! ## Concrete oracles and inputs used in witnesses and counterexamples -/

/-- Count oracle reporting 0 everywhere. -/
def cntZero : Int → Int → Nat := fun _ _ => 0

/-- Count oracle reporting 1500 everywhere (always above the cap). -/
def cnt1500 : Int → Int → Nat := fun _ _ => 1500

/-- Count oracle for the C8 scenario, a function of the formatted calendar
days only: 1500 for the full window 2020-01-01..2020-06-30 (days 0..181 from
the 2020-01-01 epoch), 750 for any other query. -/
def cnt8 : Int → Int → Nat := fun s e =>
  if dayOf s = 0 ∧ dayOf e = 181 then 1500 else 750

/-- Day-consistent count oracle: 1500 repositories created over the two days
2020-01-01..2020-01-02, of which 900 on the first day and 600 on the second;
0 for any other query. -/
def cnt9 : Int → Int → Nat := fun s e =>
  if dayOf s = 0 ∧ dayOf e = 1 then 1500
  else if dayOf s = 0 ∧ dayOf e = 0 then 900
  else if dayOf s = 1 ∧ dayOf e = 1 then 600
  else 0

/-- Per-call count oracle: the crawler queries the live API once per call,
and the API's reported `total_count` may drift between calls to the same
formatted query (the search index is approximate and data changes), so the
oracle is keyed on the raw endpoints of each distinct call.  Here the first
query for 2020-01-01..2020-01-02 and the first for 2020-01-01..2020-01-01
report 1500, a later repeat of 2020-01-01..2020-01-01 reports 900, and
everything else 0. -/
def cnt9b : Int → Int → Nat := fun s e =>
  if (s = 0 ∧ e = 86400000000) ∨ (s = 0 ∧ e = 43200000000) then 1500
  else if s = 0 ∧ e = 21600000000 then 900
  else 0

/-- An item whose declared topic list does not contain `"microservices"`. -/
def itemNoTag : RepoItem :=
  ⟨"alice", "svc", "alice/svc", "https://example.invalid/alice/svc.git",
    some "main", ["containers"]⟩

/-- Download oracle for which every transfer succeeds. -/
def dlAlwaysOk : RepoItem → Except String Unit := fun _ => Except.ok ()

/-- Page oracle whose every response reports `total_count = 150` with no
items. -/
def fetch150 : Nat → SearchPage := fun _ => ⟨150, []⟩

/-- Count oracle reporting 750 everywhere. -/
def cnt750 : Int → Int → Nat := fun _ _ => 750

/-- Per-window page oracle agreeing with `cnt750`. -/
def fetch750 : Int × Int → Nat → SearchPage := fun _ _ => ⟨750, []⟩

/-- Page oracle whose every response reports `total_count = 0` with no items
(agreeing with `cntZero`). -/
def fetchZero : Nat → SearchPage := fun _ => ⟨0, []⟩

/-! ## Day arithmetic lemmas -/

theorem dayOf_mono {a b : Int} (h : a ≤ b) : dayOf a ≤ dayOf b := by
  simp only [dayOf, usPerDay]; omega

theorem dayOf_add_day (x : Int) : dayOf (x + usPerDay) = dayOf x + 1 := by
  simp only [dayOf, usPerDay]; omega

theorem halfRoundEven_nonneg (d : Int) (h : 0 ≤ d) :
    0 ≤ halfRoundEven d ∧ halfRoundEven d ≤ d := by
  unfold halfRoundEven
  split
  · omega
  · split <;> omega

theorem halfRoundEven_nonpos (d : Int) (h : d ≤ 0) :
    d ≤ halfRoundEven d ∧ halfRoundEven d ≤ 0 := by
  unfold halfRoundEven
  split
  · omega
  · split <;> omega

/-- The midpoint `start + (end - start) / 2` stays between the calendar days
of the two endpoints whenever those are in order. -/
theorem mid_day_between (s e : Int) (h : dayOf s ≤ dayOf e) :
    dayOf s ≤ dayOf (s + halfRoundEven (e - s)) ∧
    dayOf (s + halfRoundEven (e - s)) ≤ dayOf e := by
  rcases le_total s e with hle | hle
  · have hb := halfRoundEven_nonneg (e - s) (by omega)
    exact ⟨dayOf_mono (by omega), dayOf_mono (by omega)⟩
  · have hb := halfRoundEven_nonpos (e - s) (by omega)
    have h1 : dayOf e ≤ dayOf (s + halfRoundEven (e - s)) := dayOf_mono (by omega)
    have h2 : dayOf (s + halfRoundEven (e - s)) ≤ dayOf s := dayOf_mono (by omega)
    omega

theorem windowsDays_append (l1 l2 : List (Int × Int)) :
    windowsDays (l1 ++ l2) = windowsDays l1 ∪ windowsDays l2 := by
  induction l1 with
  | nil => simp [windowsDays]
  | cons w t ih => simp [windowsDays, ih, Finset.union_assoc]

theorem head?_append_left {α : Type} (l1 l2 : List α) (h : l1 ≠ []) :
    (l1 ++ l2).head? = l1.head? := by
  cases l1 with
  | nil => exact absurd rfl h
  | cons a t => rfl

theorem getLast?_append_right {α : Type} (l1 l2 : List α) (h : l2 ≠ []) :
    (l1 ++ l2).getLast? = l2.getLast? := by
  induction l1 with
  | nil => rfl
  | cons a t ih =>
    have hne : t ++ l2 ≠ [] := by
      intro hc
      rcases List.append_eq_nil.mp hc with ⟨_, h2⟩
      exact h h2
    cases hx : t ++ l2 with
    | nil => exact absurd hx hne
    | cons b u =>
      calc (a :: t ++ l2).getLast? = (t ++ l2).getLast? := by
            rw [List.cons_append, hx, List.getLast?_cons_cons, ← hx]
        _ = l2.getLast? := ih

/-- A window whose formatted day range is inverted is returned unsplit:
the count oracle reports at most the cap on it (an inverted
`created:A..B` date predicate matches nothing). -/
theorem split_leaf_of_day_inverted (cnt : Int → Int → Nat)
    (hinv : ∀ a b : Int, dayOf b < dayOf a → cnt a b ≤ MAX_RESULTS_PER_QUERY)
    (fuel : Nat) (s e : Int) (h : dayOf e < dayOf s) (l : List (Int × Int))
    (hs : split_window_if_needed cnt fuel s e = some l) : l = [(s, e)] := by
  cases fuel with
  | zero => exact absurd hs (by simp [split_window_if_needed])
  | succ n =>
    unfold split_window_if_needed at hs
    rw [if_pos (hinv s e h)] at hs
    exact (Option.some.inj hs).symm

/-- Soundness of the partitioner at the calendar-day level: whenever the
recursion completes, the returned leaves are nonempty, all within the cap,
pairwise day-adjacent in order, start on the window's first day, end on its
last day, and cover exactly the window's days. -/
theorem split_sound (cnt : Int → Int → Nat)
    (hinv : ∀ a b : Int, dayOf b < dayOf a → cnt a b ≤ MAX_RESULTS_PER_QUERY) :
    ∀ (fuel : Nat) (s e : Int) (l : List (Int × Int)), dayOf s ≤ dayOf e →
      split_window_if_needed cnt fuel s e = some l →
      l ≠ [] ∧
      (∀ w ∈ l, cnt w.1 w.2 ≤ MAX_RESULTS_PER_QUERY) ∧
      List.Chain' dayAdjacent l ∧
      (l.head?.map fun w => dayOf w.1) = some (dayOf s) ∧
      (l.getLast?.map fun w => dayOf w.2) = some (dayOf e) ∧
      windowsDays l = Finset.Icc (dayOf s) (dayOf e) := by
  intro fuel
  induction fuel with
  | zero => intro s e l _ hs; exact absurd hs (by simp [split_window_if_needed])
  | succ n ih =>
    intro s e l hse hs
    unfold split_window_if_needed at hs
    by_cases hc : cnt s e ≤ MAX_RESULTS_PER_QUERY
    · rw [if_pos hc] at hs
      obtain rfl : [(s, e)] = l := Option.some.inj hs
      refine ⟨by simp, ?_, by simp, by simp, by simp, ?_⟩
      · intro w hw
        rw [List.mem_singleton] at hw
        subst hw; exact hc
      · simp [windowsDays, windowDays]
    · rw [if_neg hc] at hs
      have hmd := mid_day_between s e hse
      cases hL : split_window_if_needed cnt n s (s + halfRoundEven (e - s)) with
      | none => rw [hL] at hs; exact absurd hs (by simp)
      | some ll =>
        cases hR : split_window_if_needed cnt n
            (s + halfRoundEven (e - s) + usPerDay) e with
        | none => rw [hL, hR] at hs; exact absurd hs (by simp)
        | some lr =>
          rw [hL, hR] at hs
          obtain rfl : ll ++ lr = l := Option.some.inj hs
          obtain ⟨hln, hlb, hlc, hlh, hll, hlu⟩ := ih s _ ll hmd.1 hL
          have hPR : lr ≠ [] ∧
              (∀ w ∈ lr, cnt w.1 w.2 ≤ MAX_RESULTS_PER_QUERY) ∧
              List.Chain' dayAdjacent lr ∧
              (lr.head?.map fun w => dayOf w.1)
                = some (dayOf (s + halfRoundEven (e - s)) + 1) ∧
              (lr.getLast?.map fun w => dayOf w.2) = some (dayOf e) ∧
              windowsDays lr
                = Finset.Icc (dayOf (s + halfRoundEven (e - s)) + 1) (dayOf e) := by
            by_cases hord : dayOf (s + halfRoundEven (e - s)) + 1 ≤ dayOf e
            · have := ih _ e lr (by rw [dayOf_add_day]; exact hord) hR
              rw [dayOf_add_day] at this
              exact this
            · have hlt : dayOf e < dayOf (s + halfRoundEven (e - s) + usPerDay) := by
                rw [dayOf_add_day]; omega
              obtain rfl := split_leaf_of_day_inverted cnt hinv n _ e hlt lr hR
              refine ⟨by simp, ?_, by simp, ?_, by simp, ?_⟩
              · intro w hw
                rw [List.mem_singleton] at hw
                subst hw; exact hinv _ _ hlt
              · simp [dayOf_add_day]
              · simp [windowsDays, windowDays, dayOf_add_day]
          obtain ⟨hrn, hrb, hrc, hrh, hrl, hru⟩ := hPR
          refine ⟨by simp [hln], ?_, ?_, ?_, ?_, ?_⟩
          · intro w hw
            rcases List.mem_append.mp hw with h | h
            · exact hlb w h
            · exact hrb w h
          · refine List.Chain'.append hlc hrc ?_
            intro x hx y hy
            rw [Option.mem_def] at hx hy
            have hx2 : dayOf x.2 = dayOf (s + halfRoundEven (e - s)) := by
              rw [hx] at hll
              exact Option.some.inj (by simpa using hll)
            have hy1 : dayOf y.1 = dayOf (s + halfRoundEven (e - s)) + 1 := by
              rw [hy] at hrh
              exact Option.some.inj (by simpa using hrh)
            unfold dayAdjacent
            rw [hx2, hy1]
          · rw [head?_append_left _ _ hln]; exact hlh
          · rw [getLast?_append_right _ _ hrn]; exact hrl
          · rw [windowsDays_append, hlu, hru]
            ext x
            simp only [Finset.mem_union, Finset.mem_Icc]
            omega

/-! ## Claims -/

/-- C1: for every window with start ≤ end on which the partitioner's
recursion completes, `split_window_if_needed` returns a nonempty ordered
sequence of leaf windows: consecutive leaves are day-adjacent (the next
starts on the calendar day right after the previous ends: no gaps, no
overlaps), the first leaf starts on the window's first day, the last leaf
ends on its last day, their calendar days together are exactly the window's
days, and the count oracle reported at most MAX_RESULTS_PER_QUERY (1000) for
every returned leaf (so in particular for any single-day leaf that is
returned).  The count oracle is only assumed to answer at most the cap on a
query whose formatted day range is inverted, which an inverted
`created:A..B` predicate (matching nothing) always does. -/
theorem c1_partition_cover (cnt : Int → Int → Nat) (fuel : Nat) (s e : Int)
    (l : List (Int × Int))
    (hinv : ∀ a b : Int, dayOf b < dayOf a → cnt a b ≤ MAX_RESULTS_PER_QUERY)
    (hse : s ≤ e)
    (h : split_window_if_needed cnt fuel s e = some l) :
    l ≠ [] ∧
    (∀ w ∈ l, cnt w.1 w.2 ≤ MAX_RESULTS_PER_QUERY) ∧
    List.Chain' dayAdjacent l ∧
    (l.head?.map fun w => dayOf w.1) = some (dayOf s) ∧
    (l.getLast?.map fun w => dayOf w.2) = some (dayOf e) ∧
    windowsDays l = Finset.Icc (dayOf s) (dayOf e) :=
  split_sound cnt hinv fuel s e l (dayOf_mono hse) h

/-- Witness for C1 at a concrete input: the all-zero count oracle on the
two-day window 2020-01-01..2020-01-02 (0 .. 86400000000 microseconds). -/
theorem c1_partition_cover_witness :
    (∀ a b : Int, dayOf b < dayOf a → cntZero a b ≤ MAX_RESULTS_PER_QUERY) ∧
    (0 : Int) ≤ 86400000000 ∧
    ([((0 : Int), (86400000000 : Int))] ≠ [] ∧
      (∀ w ∈ [((0 : Int), (86400000000 : Int))],
        cntZero w.1 w.2 ≤ MAX_RESULTS_PER_QUERY) ∧
      List.Chain' dayAdjacent [((0 : Int), (86400000000 : Int))] ∧
      ([((0 : Int), (86400000000 : Int))].head?.map fun w => dayOf w.1)
        = some (dayOf 0) ∧
      ([((0 : Int), (86400000000 : Int))].getLast?.map fun w => dayOf w.2)
        = some (dayOf 86400000000) ∧
      windowsDays [((0 : Int), (86400000000 : Int))]
        = Finset.Icc (dayOf 0) (dayOf 86400000000)) :=
  ⟨fun _ _ _ => Nat.zero_le _, by decide,
    c1_partition_cover cntZero 1 0 86400000000 [(0, 86400000000)]
      (fun _ _ _ => Nat.zero_le _) (by decide) rfl⟩

/-- C2: the partitioner has no single-day base case.  On a single-day window
(2020-01-01..2020-01-01, i.e. endpoints 0 and 0) whose count stays above the
cap, the midpoint `start + (end - start)/2` equals `start` and the left
recursive call receives the identical window, so the recursion never
returns: for every recursion depth the fuel-indexed embedding yields `none`.
The Python original therefore recurses until the interpreter's recursion
limit instead of returning the irreducible single-day window as-is. -/
theorem c2_single_day_no_base_case :
    ∀ fuel : Nat, split_window_if_needed cnt1500 fuel 0 0 = none := by
  intro fuel
  induction fuel with
  | zero => rfl
  | succ n ih =>
    unfold split_window_if_needed
    rw [if_neg (by decide)]
    have h0 : (0 : Int) + halfRoundEven (0 - 0) = 0 := by decide
    rw [h0, ih]

/-- C3 (counterexample): in crawler_refactored.py a throttled search request
is not retried.  With the 403 response carrying remaining "0" and
reset = now + 30, `search_count`'s handling sleeps
max(0, reset - now + 3) = 33 seconds and then `raise_for_status` raises: the
throttled response surfaces to the caller as an HTTP 403 error instead of
being retried, contradicting the claim for this variant (and where the 403
arrives during a download, `crawl`'s except-branch then counts it as a
failure). -/
theorem c3_counterexample :
    search_count_handle 0 ⟨403, some "0", some 30, 0⟩
      = (33, Except.error 403) := rfl

/-- C3 (amended): the quota-retry behaviour the claim describes is that of
the SRP client `GitHubSearchClient._get`: on a 403 with remaining "0" it
blocks for max(0, reset - now + 5) seconds (35 when reset = now + 30: the
reset delta plus the 5-second safety margin), retries the identical request,
and the throttled response never surfaces as an error (failure counters are
download counters and are untouched).  The flat crawler_refactored.py
variant instead only sleeps (margin 3) and re-raises, as the counterexample
shows. -/
theorem c3_srp_quota_retry (now reset : Int) (b : Nat) :
    srpGet [⟨403, some "0", some reset, 0⟩, ⟨200, none, none, b⟩] now
      = some (Except.ok b, [max 0 (reset - now + 5)]) ∧
    srpGet [⟨403, some "0", some (now + 30), 0⟩, ⟨200, none, none, b⟩] now
      = some (Except.ok b, [35]) := by
  constructor
  · rfl
  · have h : max 0 (now + 30 - now + 5) = 35 := by omega
    calc srpGet [⟨403, some "0", some (now + 30), 0⟩, ⟨200, none, none, b⟩] now
        = some (Except.ok b, [max 0 (now + 30 - now + 5)]) := rfl
      _ = some (Except.ok b, [35]) := by rw [h]

/-- Per-item bookkeeping of `crawl`: the rows written are exactly one row
per yielded item, in order, with the status determined by the download
outcome, and the two counters sum to the number of items. -/
theorem crawlProcessItems_spec (dl : RepoItem → Except String Unit)
    (items : List RepoItem) :
    (crawlProcessItems dl items).1
        = items.map (fun it => crawlRow it (downloadStatus (dl it))) ∧
    (crawlProcessItems dl items).2.1 + (crawlProcessItems dl items).2.2
        = items.length := by
  induction items with
  | nil => exact ⟨rfl, rfl⟩
  | cons it rest ih =>
    obtain ⟨ih1, ih2⟩ := ih
    cases hdl : dl it with
    | ok u =>
      refine ⟨?_, ?_⟩
      · simp [crawlProcessItems, hdl, downloadStatus, ih1]
      · simp only [crawlProcessItems, hdl, List.length_cons]
        omega
    | error msg =>
      refine ⟨?_, ?_⟩
      · simp [crawlProcessItems, hdl, downloadStatus, ih1]
      · simp only [crawlProcessItems, hdl, List.length_cons]
        omega

/-- C4: in `crawl` every item yielded by the page iterator is processed, each
processed item produces exactly one CSV record (status "downloaded" or
"error" according to the download outcome), and exactly one of the two
period counters is incremented per item, so over the leaf windows of a
top-level window `period_downloaded + period_failed` equals the number of
items the iterator yielded. -/
theorem c4_one_record_one_counter (dl : RepoItem → Except String Unit)
    (itemsOf : Int × Int → List RepoItem) (ws : List (Int × Int)) :
    (crawlProcessWindows dl itemsOf ws).1
        = (ws.flatMap itemsOf).map (fun it => crawlRow it (downloadStatus (dl it))) ∧
    (crawlProcessWindows dl itemsOf ws).2.1
        + (crawlProcessWindows dl itemsOf ws).2.2
        = (ws.flatMap itemsOf).length := by
  induction ws with
  | nil => exact ⟨rfl, rfl⟩
  | cons w rest ih =>
    obtain ⟨ih1, ih2⟩ := ih
    obtain ⟨h1, h2⟩ := crawlProcessItems_spec dl (itemsOf w)
    refine ⟨?_, ?_⟩
    · simp only [crawlProcessWindows, List.flatMap_cons, List.map_append, h1, ih1]
    · simp only [crawlProcessWindows, List.flatMap_cons, List.length_append]
      omega

/-- C5 (counterexample): `crawl` in crawler_refactored.py never checks the
topic list.  The concrete item `itemNoTag`, whose declared topics
(["containers"]) do not contain "microservices", still gets a download
attempt: with a succeeding transfer the period counter becomes 1 and the
CSV row records status "downloaded" — the item is downloaded, refuting the
claim that such an item is not downloaded. -/
theorem c5_counterexample :
    (itemNoTag.topics.contains "microservices") = false ∧
    (crawlProcessItems dlAlwaysOk [itemNoTag]).2.1 = 1 ∧
    (crawlProcessItems dlAlwaysOk [itemNoTag]).1
      = [crawlRow itemNoTag "downloaded"] :=
  ⟨by decide, rfl, rfl⟩

/-- C5 (amended): crawler_refactored.py attempts a download for every yielded
item with no topic check at all (one record per item regardless of topics);
the SRP pipeline skips an item only when its topic list is nonempty and
lacks the tag, so an item with an absent or empty topic list is still
downloaded, while one listing other topics only is skipped. -/
theorem c5_amended_topic_policy :
    (∀ (dl : RepoItem → Except String Unit) (items : List RepoItem),
        (crawlProcessItems dl items).1.length = items.length) ∧
    (∀ (dl : RepoItem → Bool × String) (it : RepoItem) (rest : List RepoItem),
        (srpProcessItems dl (it :: rest)).1.length
          = (if srpSkip it.topics then 0 else 1)
            + (srpProcessItems dl rest).1.length) ∧
    srpSkip ["containers"] = true ∧
    srpSkip [] = false ∧
    srpSkip ["microservices"] = false := by
  refine ⟨?_, ?_, by decide, by decide, by decide⟩
  · intro dl items
    induction items with
    | nil => rfl
    | cons it rest ih =>
      cases hdl : dl it with
      | ok u => simp [crawlProcessItems, hdl, ih]
      | error m => simp [crawlProcessItems, hdl, ih]
  · intro dl it rest
    cases hs : srpSkip it.topics with
    | true => simp [srpProcessItems, hs]
    | false => simp [srpProcessItems, hs]; omega

/-- C6: the archive fetch never raises to its caller: `download_zip` maps
every raised exception to the outcome `(False, "error: " + message)` with
the triggering exception's message as detail, and every completed transfer
to `(True, "downloaded")`; and a failure never aborts the run: in `crawl`
every yielded item is still processed (one record each, counters summing to
the item count) whatever the download outcomes, in particular when every
single download fails. -/
theorem c6_fetch_never_raises :
    (∀ msg : String, download_zip (Except.error msg) = (false, "error: " ++ msg)) ∧
    download_zip (Except.ok ()) = (true, "downloaded") ∧
    (∀ (dl : RepoItem → Except String Unit) (items : List RepoItem),
        (crawlProcessItems dl items).1.length = items.length ∧
        (crawlProcessItems dl items).2.1 + (crawlProcessItems dl items).2.2
          = items.length) ∧
    (∀ (msgOf : RepoItem → String) (items : List RepoItem),
        (crawlProcessItems (fun it => Except.error (msgOf it)) items).2.2
          = items.length) := by
  refine ⟨fun msg => rfl, rfl, ?_, ?_⟩
  · intro dl items
    have h := crawlProcessItems_spec dl items
    exact ⟨by rw [h.1]; simp, h.2⟩
  · intro msgOf items
    induction items with
    | nil => rfl
    | cons it rest ih => simp [crawlProcessItems, ih]

/-- C7 (counterexample): the claim's page formula does not hold of the SRP
pipeline's pagination (crawler_refactored_with_SRP.py line 247, cited by the
claim): for a window reporting total_count = 1500 it requests
ceil(1500/100) = 15 pages, not ceil(min(1500, 1000)/100) = 10 — the cap is
not applied there (nor in crawler.py's numberOfPages). -/
theorem c7_counterexample :
    (srpRequestedPages 1500).length = 15 ∧
    pagesFor 1500 = 10 ∧
    (srpRequestedPages 1500).length ≠ pagesFor 1500 :=
  ⟨by decide, by decide, by decide⟩

/-- C7 (amended): the claim's algorithm is exactly that of
`iter_search_pages` in crawler_refactored.py: the first request (page 1)
learns total_count and its items are yielded immediately; the pages
requested are 1, 2, ..., pages with pages = ceil(min(n, 1000)/100) (for
n ≥ 1 the request count equals pages; for n = 0 only the initial learning
request is made); the items yielded are the concatenation of the pages'
items in ascending page order with no reordering or deduplication, and the
fixed inter-page delay is DELAY_BETWEEN_PAGES = 5 seconds.  The SRP
pipeline and the original crawler.py instead compute ceil(n/100) with no
cap, as the counterexample records. -/
theorem c7_iter_pages (fetch : Nat → SearchPage) :
    (iter_search_pages fetch).2
        = 1 :: List.range' 2 (pagesFor (fetch 1).total_count - 1) ∧
    (1 ≤ (fetch 1).total_count →
        (iter_search_pages fetch).2.length = pagesFor (fetch 1).total_count) ∧
    (iter_search_pages fetch).1
        = ((iter_search_pages fetch).2).foldr
            (fun p acc => (fetch p).items ++ acc) [] ∧
    DELAY_BETWEEN_PAGES = 5 := by
  refine ⟨rfl, ?_, rfl, rfl⟩
  intro hn
  have hp : 1 ≤ pagesFor (fetch 1).total_count := by
    unfold pagesFor PER_PAGE MAX_RESULTS_PER_QUERY
    omega
  simp only [iter_search_pages, List.length_cons, List.length_range']
  omega

/-- Witness for C7's amended theorem at the concrete page oracle reporting
total_count = 150 on every request: 2 pages are requested. -/
theorem c7_iter_pages_witness :
    1 ≤ (fetch150 1).total_count ∧
    (iter_search_pages fetch150).2.length = pagesFor (fetch150 1).total_count :=
  ⟨by decide, (c7_iter_pages fetch150).2.1 (by decide)⟩

/-- C8 (counterexample): on the window 2020-01-01..2020-06-30 (microsecond
endpoints 0 and 15638400000000, i.e. day 0 and day 181 from the 2020-01-01
epoch) with the top count 1500 and sub-window counts 750, the partitioner's
midpoint is 2020-03-31T12:00, so the left leaf ends on day 90 (2020-03-31)
and the right leaf starts on day 91 (2020-04-01) — not on day 90
(2020-03-31) as the claimed 2020-03-30/2020-03-31 boundary would have it.
Also the window has 182 calendar days, not 181. -/
theorem c8_counterexample :
    split_window_if_needed cnt8 2 0 15638400000000
      = some [(0, 7819200000000), (7905600000000, 15638400000000)] ∧
    dayOf 7819200000000 = 90 ∧
    dayOf 7905600000000 = 91 ∧
    dayOf 7905600000000 ≠ 90 ∧
    (Finset.Icc (dayOf 0) (dayOf 15638400000000)).card = 182 ∧
    (Finset.Icc (dayOf 0) (dayOf 15638400000000)).card ≠ 181 := by
  have h0 : dayOf 0 = 0 := by decide
  have h1 : dayOf 15638400000000 = 181 := by decide
  have hcard : (Finset.Icc (dayOf 0) (dayOf 15638400000000)).card = 182 := by
    rw [h0, h1, Int.card_Icc]
    decide
  refine ⟨by decide, by decide, by decide, by decide, hcard, ?_⟩
  rw [hcard]
  decide

/-- C8 (amended): on that window the partitioner bisects at the
2020-03-31/2020-04-01 boundary (days 90/91): it returns the two leaves
2020-01-01..2020-03-31T12:00 and 2020-04-01T12:00..2020-06-30, each with
count 750 ≤ 1000, whose calendar days are disjoint and together cover all
182 days of the window exactly once. -/
theorem c8_amended_scenario :
    split_window_if_needed cnt8 2 0 15638400000000
      = some [(0, 7819200000000), (7905600000000, 15638400000000)] ∧
    MAX_RESULTS_PER_QUERY < cnt8 0 15638400000000 ∧
    dayOf 7819200000000 = 90 ∧
    dayOf 7905600000000 = 91 ∧
    cnt8 0 7819200000000 ≤ MAX_RESULTS_PER_QUERY ∧
    cnt8 7905600000000 15638400000000 ≤ MAX_RESULTS_PER_QUERY ∧
    windowsDays [(0, 7819200000000), (7905600000000, 15638400000000)]
      = Finset.Icc (dayOf 0) (dayOf 15638400000000) ∧
    windowDays (0, 7819200000000) ∩ windowDays (7905600000000, 15638400000000)
      = ∅ ∧
    (Finset.Icc (dayOf 0) (dayOf 15638400000000)).card = 182 := by
  have h0 : dayOf (0 : Int) = 0 := by decide
  have h1 : dayOf (15638400000000 : Int) = 181 := by decide
  have h2 : dayOf (7819200000000 : Int) = 90 := by decide
  have h3 : dayOf (7905600000000 : Int) = 91 := by decide
  refine ⟨by decide, by decide, h2, h3, by decide, by decide, ?_, ?_, ?_⟩
  · simp only [windowsDays, windowDays, h0, h1, h2, h3]
    ext x
    simp only [Finset.union_empty, Finset.mem_union, Finset.mem_Icc]
    omega
  · simp only [windowDays, h0, h1, h2, h3]
    ext x
    simp only [Finset.mem_inter, Finset.mem_Icc, Finset.not_mem_empty, iff_false,
      not_and]
    omega
  · rw [h0, h1, Int.card_Icc]
    decide

/-- C9 (counterexample): the partitioner constructs windows with start after
end.  First part: with the day-consistent count oracle cnt9 (1500 results
over 2020-01-01..2020-01-02, 900 of them on the first day, 600 on the
second), partitioning the orchestrator window 2020-01-01..2020-01-02
returns the right half (midpoint + 1 day, end) = (2020-01-02T12:00,
2020-01-02T00:00), whose start exceeds its end.  Second part: with the
per-call oracle cnt9b the recursion also returns the right-half window
(2020-01-02T06:00, 2020-01-01T12:00) whose start is on a later calendar day
than its end (day 1 vs day 0).  Third part: that top-level window is
produced by the orchestrator for the run start 2020-01-01, finish
2020-01-02. -/
theorem c9_counterexample :
    (split_window_if_needed cnt9 2 0 86400000000
        = some [(0, 43200000000), (129600000000, 86400000000)] ∧
      (86400000000 : Int) < 129600000000) ∧
    (split_window_if_needed cnt9b 3 0 86400000000
        = some [(0, 21600000000), (108000000000, 43200000000),
            (129600000000, 86400000000)] ∧
      dayOf 43200000000 < dayOf 108000000000) ∧
    crawlTopWindows 1 0 86400000000 = [(0, 86400000000)] :=
  ⟨⟨by decide, by decide⟩, ⟨by decide, by decide⟩, by decide⟩

/-- C9 (amended): the orchestrator's fixed-size top-level windows always
satisfy start ≤ end, and so does the partitioner's left half
(start, midpoint); the right half (midpoint + 1 day, end) satisfies
start ≤ end whenever the parent window spans at least 2 days, but for
shorter parents it can invert, as the counterexample shows. -/
theorem c9_amended :
    (∀ (fuel : Nat) (s f : Int), ∀ w ∈ crawlTopWindows fuel s f, w.1 ≤ w.2) ∧
    (∀ s e : Int, s ≤ e → s ≤ s + halfRoundEven (e - s)) ∧
    (∀ s e : Int, 2 * usPerDay ≤ e - s →
      s + halfRoundEven (e - s) + usPerDay ≤ e) := by
  refine ⟨?_, ?_, ?_⟩
  · intro fuel
    induction fuel with
    | zero => intro s f w hw; simp [crawlTopWindows] at hw
    | succ n ih =>
      intro s f w hw
      unfold crawlTopWindows at hw
      by_cases hsf : s ≤ f
      · rw [if_pos hsf] at hw
        rcases List.mem_cons.mp hw with rfl | hw2
        · simp only [DATE_STEP_DAYS, usPerDay]
          simp only [le_min_iff]
          constructor <;> omega
        · exact ih _ f w hw2
      · rw [if_neg hsf] at hw
        simp at hw
  · intro s e h
    have := halfRoundEven_nonneg (e - s) (by omega)
    omega
  · intro s e h
    simp only [halfRoundEven, usPerDay] at h ⊢
    split
    · omega
    · split <;> omega

/-- Witness for C9's amended theorem at concrete inputs: the first
orchestrator window of the run 2020-01-01..2020-07-19, and the halves of
the 5-day window 0..432000000000. -/
theorem c9_amended_witness :
    (((0 : Int), (15724800000000 : Int)) ∈ crawlTopWindows 2 0 17280000000000 ∧
      (0 : Int) ≤ 15724800000000) ∧
    ((0 : Int) ≤ 432000000000 ∧
      (0 : Int) ≤ 0 + halfRoundEven (432000000000 - 0)) ∧
    (2 * usPerDay ≤ (432000000000 : Int) - 0 ∧
      0 + halfRoundEven (432000000000 - 0) + usPerDay ≤ 432000000000) :=
  ⟨⟨by decide, c9_amended.1 2 0 17280000000000 (0, 15724800000000) (by decide)⟩,
    ⟨by decide, c9_amended.2.1 0 432000000000 (by decide)⟩,
    ⟨by decide, c9_amended.2.2 0 432000000000 (by decide)⟩⟩

/-- C10 (amended): the pages figure `crawl` records in a top-level window's
summary row is `page_count_estimate`, computed from a separate
`search_count` query per leaf window before iterating; when the count
oracle answers each leaf's queries consistently (`hfix`: the iterator's own
first-page request reports the same total_count as the estimate's query),
the recorded figure equals the sum over leaves of
ceil(min(count(leaf), 1000)/100), and — when every leaf's count is at
least 1 — also the total number of page requests the iterator issues
across the leaves.  The positivity condition is needed: a zero-count leaf
contributes 0 to the recorded figure while the iterator still issues its
one count-learning page-1 request, as the counterexample shows. -/
theorem c10_pages_recorded (cnt : Int → Int → Nat) (ws : List (Int × Int))
    (fetchOf : Int × Int → Nat → SearchPage)
    (hfix : ∀ w ∈ ws, (fetchOf w 1).total_count = cnt w.1 w.2)
    (hpos : ∀ w ∈ ws, 1 ≤ cnt w.1 w.2) :
    page_count_estimate cnt ws
        = (ws.map fun w => pagesFor ((fetchOf w 1).total_count)).sum ∧
    page_count_estimate cnt ws
        = (ws.map fun w => ((iter_search_pages (fetchOf w)).2).length).sum := by
  revert hfix hpos
  induction ws with
  | nil => intro _ _; exact ⟨rfl, rfl⟩
  | cons w rest ih =>
    intro hfix hpos
    obtain ⟨ih1, ih2⟩ := ih (fun x hx => hfix x (List.mem_cons_of_mem _ hx))
      (fun x hx => hpos x (List.mem_cons_of_mem _ hx))
    have hw1 : (fetchOf w 1).total_count = cnt w.1 w.2 :=
      hfix w (List.mem_cons_self _ _)
    have hw2 : 1 ≤ cnt w.1 w.2 := hpos w (List.mem_cons_self _ _)
    have hlen : ((iter_search_pages (fetchOf w)).2).length
        = pagesFor ((fetchOf w 1).total_count) := by
      have hp : 1 ≤ pagesFor ((fetchOf w 1).total_count) := by
        rw [hw1]
        unfold pagesFor PER_PAGE MAX_RESULTS_PER_QUERY
        omega
      simp only [iter_search_pages, List.length_cons, List.length_range']
      omega
    refine ⟨?_, ?_⟩
    · simp only [page_count_estimate, List.foldr_cons, List.map_cons,
        List.sum_cons] at ih1 ⊢
      rw [← hw1]
      omega
    · simp only [page_count_estimate, List.foldr_cons, List.map_cons,
        List.sum_cons] at ih2 ⊢
      rw [hlen, ← hw1]
      omega

/-- Witness for C10 at a concrete input: one leaf window with every count
750, for which the estimate and the iterator both give 8 pages. -/
theorem c10_pages_recorded_witness :
    (∀ w ∈ [((0 : Int), (86400000000 : Int))],
        (fetch750 w 1).total_count = cnt750 w.1 w.2) ∧
    (∀ w ∈ [((0 : Int), (86400000000 : Int))], 1 ≤ cnt750 w.1 w.2) ∧
    (page_count_estimate cnt750 [((0 : Int), (86400000000 : Int))]
        = ([((0 : Int), (86400000000 : Int))].map
            fun w => pagesFor ((fetch750 w 1).total_count)).sum ∧
      page_count_estimate cnt750 [((0 : Int), (86400000000 : Int))]
        = ([((0 : Int), (86400000000 : Int))].map
            fun w => ((iter_search_pages (fetch750 w)).2).length).sum) :=
  ⟨fun _ _ => rfl, fun _ _ => (by decide : (1 : Nat) ≤ 750),
    c10_pages_recorded cnt750 [(0, 86400000000)] fetch750
      (fun _ _ => rfl) (fun _ _ => (by decide : (1 : Nat) ≤ 750))⟩

/-- C10 (counterexample): the claimed equality fails on a zero-count leaf,
which is within the claim's scope (the oracle is a fixed function of the
window: every query for the leaf reports 0).  The recorded figure for the
leaf is ceil(min(0, 1000)/100) = 0, but the iterator still issues its
count-learning page-1 request for that leaf, so it fetches 1 page: the
recorded figure (0) is not the number of pages the iterator actually
fetches (1). -/
theorem c10_counterexample :
    page_count_estimate cntZero [((0 : Int), (86400000000 : Int))] = 0 ∧
    (fetchZero 1).total_count = cntZero (0 : Int) (86400000000 : Int) ∧
    (iter_search_pages fetchZero).2 = [1] ∧
    page_count_estimate cntZero [((0 : Int), (86400000000 : Int))]
      ≠ (iter_search_pages fetchZero).2.length :=
  ⟨rfl, rfl, rfl, by decide⟩
